import Mathlib

/-!
Gems: the class template `Singleton<T>` of singleton/source/Singleton.cpp.

A shallow embedding of the class template `Singleton<T>` and the properties of
its four members: the constructor, the destructor, `GetSingleton` and
`GetSingletonPointer`.

Modelling decisions, all read off the source:

* every instantiation `Singleton<T>` owns one static data member
  `ms_Singleton`, so the program state is a map from the tracked type to a
  pointer value; the null pointer is the address `0`;
* `int` is 32-bit two's complement, represented by its value in
  `[-2^31, 2^31)`; arithmetic on `int` wraps; a pointer converted to `int` keeps
  its low 32 bits; an `int` converted to a pointer is sign-extended to the
  pointer width;
* the pointer width and whether `NDEBUG` is defined where `<assert.h>` is
  included are not fixed by the source and are parameters (`Build`);
* a failed `assert` aborts the program; the outcome records the memory as it
  was at that moment.
-/

namespace Gems.Singleton

/-- Names a class `T` for which `Singleton<T>` is instantiated. -/
abbrev TypeId := Nat

/-- Pointer values are addresses; `0` is the null pointer. -/
abbrev Ptr := Nat

/-- What the source leaves to the compilation: whether `NDEBUG` is defined where
`<assert.h>` is included, and the width of a pointer in bits. -/
structure Build where
  ndebug : Bool
  ptrBits : Nat

/-- A 32-bit target compiled with assertions (pointers as wide as `int`). -/
def ilp32 : Build := ⟨false, 32⟩

/-- A 64-bit target compiled with assertions (pointers wider than `int`). -/
def llp64 : Build := ⟨false, 64⟩

/-- The static data members: `ms_Singleton T` is `Singleton<T>::ms_Singleton`. -/
structure Mem where
  ms_Singleton : TypeId → Ptr

/-- Line 67: `template <typename T> T* Singleton<T>::ms_Singleton = 0;`. -/
def initMem : Mem := ⟨fun _ => 0⟩

/-- The assignment `Singleton<T>::ms_Singleton = p`. -/
def Mem.set (m : Mem) (T : TypeId) (p : Ptr) : Mem :=
  ⟨fun U => if U = T then p else m.ms_Singleton U⟩

/-- How a member function ends: it returns `val` leaving memory `mem`, or an
assertion fails and the program aborts with memory `mem`. -/
inductive Outcome (α : Type) where
  | ok (val : α) (mem : Mem)
  | abort (mem : Mem)

/-- The memory when the call ended, by return or by abort. -/
def Outcome.mem {α : Type} : Outcome α → Mem
  | .ok _ m => m
  | .abort m => m

/-- Whether the call ended in a failed assertion. -/
def Outcome.aborted {α : Type} : Outcome α → Bool
  | .ok _ _ => false
  | .abort _ => true

/-- The returned value, if the call returned. -/
def Outcome.val? {α : Type} : Outcome α → Option α
  | .ok v _ => some v
  | .abort _ => none

/-- Sequencing of two statements: the second runs only if the first returned. -/
def Outcome.andThen {α β : Type} (r : Outcome α) (k : α → Mem → Outcome β) : Outcome β :=
  match r with
  | .ok v m => k v m
  | .abort m => .abort m

/-- The macro `assert(e)` of `<assert.h>`: expands to nothing when `NDEBUG` is
defined, and otherwise aborts when `e` is false. -/
def assert (b : Build) (e : Bool) (m : Mem) : Outcome Unit :=
  if b.ndebug then .ok () m
  else if e then .ok () m
  else .abort m

/-- Reduction of an integer to the range of a 32-bit two's complement `int`. -/
def wrapInt (z : Int) : Int := (z + 2147483648) % 4294967296 - 2147483648

/-- The cast `(int)p` of a pointer: the low 32 bits, read as two's complement. -/
def ptrToInt (p : Ptr) : Int := wrapInt (Int.ofNat p)

/-- The cast `(T*)i` of an `int`: sign extension to the pointer width. -/
def intToPtr (b : Build) (i : Int) : Ptr := Int.toNat (i % Int.ofNat (2 ^ b.ptrBits))

/-- The cast `(Singleton<T>*)p` of a `T*`, where the `Singleton<T>` sub-object
lies `delta` bytes into `T`: a null pointer stays null, any other pointer is
moved by `delta`. -/
def upcast (b : Build) (delta : Nat) (p : Ptr) : Ptr :=
  if p = 0 then 0 else (p + delta) % 2 ^ b.ptrBits

/-- The local `int offset = (int)(T*)1 - (int)(Singleton<T>*)(T*)1;`. -/
def ctorOffset (b : Build) (delta : Nat) : Int :=
  wrapInt (ptrToInt 1 - ptrToInt (upcast b delta 1))

/-- Lines 45-50, `Singleton<T>::Singleton`, run on the sub-object at `this`:
```
assert(!ms_Singleton);
int offset = (int)(T*)1 - (int)(Singleton<T>*)(T*)1;
ms_Singleton = (T*)((int)this + offset);
```
-/
def ctor (b : Build) (delta : Nat) (T : TypeId) (this : Ptr) (m : Mem) : Outcome Unit :=
  (assert b (m.ms_Singleton T == 0) m).andThen fun _ m1 =>
    let offset : Int := ctorOffset b delta
    .ok () (m1.set T (intToPtr b (wrapInt (ptrToInt this + offset))))

/-- Lines 51-55, `Singleton<T>::~Singleton`, run on the sub-object at `this`:
```
assert(ms_Singleton);
ms_Singleton = 0;
```
-/
def dtor (b : Build) (T : TypeId) (_this : Ptr) (m : Mem) : Outcome Unit :=
  (assert b (m.ms_Singleton T != 0) m).andThen fun _ m1 =>
    .ok () (m1.set T 0)

/-- Lines 56-60, `Singleton<T>::GetSingleton`:
```
assert(ms_Singleton);
return *ms_Singleton;
```
The returned reference is represented by the address it refers to. -/
def GetSingleton (b : Build) (T : TypeId) (m : Mem) : Outcome Ptr :=
  (assert b (m.ms_Singleton T != 0) m).andThen fun _ m1 =>
    .ok (m1.ms_Singleton T) m1

/-- Lines 61-64, `Singleton<T>::GetSingletonPointer`: `return ms_Singleton;`. -/
def GetSingletonPointer (T : TypeId) (m : Mem) : Outcome Ptr :=
  .ok (m.ms_Singleton T) m

/-- An event of a run: a complete `T` object at address `d` is constructed, or
the complete `T` object at address `d` is destructed. -/
inductive Event where
  | construct (T : TypeId) (d : Ptr)
  | destruct (T : TypeId) (d : Ptr)

/-- The memory together with the objects that are alive: `alive T` lists the
addresses of the complete `T` objects whose construction returned and which
have not been destructed since. -/
structure World where
  mem : Mem
  alive : TypeId → List Ptr

/-- The world before anything has been constructed. -/
def initWorld : World := ⟨initMem, fun _ => []⟩

/-- The live objects after a `T` object at `d` came to life. -/
def World.born (w : World) (T : TypeId) (d : Ptr) : TypeId → List Ptr :=
  fun U => if U = T then d :: w.alive U else w.alive U

/-- The live objects after the `T` object at `d` died. -/
def World.died (w : World) (T : TypeId) (d : Ptr) : TypeId → List Ptr :=
  fun U => if U = T then (w.alive U).erase d else w.alive U

/-- How a run ends: every event was carried out, or an assertion failed, or the
next event destructs an object that is not alive (such a sequence is not a run). -/
inductive RunEnd where
  | finished (w : World)
  | aborted (w : World)
  | notAlive

/-- One event. `layout T` is the byte offset of the `Singleton<T>` sub-object
inside `T`, so the constructor and destructor of an object at `d` run with
`this = d + layout T`. -/
def step (b : Build) (layout : TypeId → Nat) (w : World) : Event → RunEnd
  | .construct T d =>
    match ctor b (layout T) T (d + layout T) w.mem with
    | .ok _ m => .finished ⟨m, w.born T d⟩
    | .abort m => .aborted ⟨m, w.alive⟩
  | .destruct T d =>
    if d ∈ w.alive T then
      match dtor b T (d + layout T) w.mem with
      | .ok _ m => .finished ⟨m, w.died T d⟩
      | .abort m => .aborted ⟨m, w.alive⟩
    else .notAlive

/-- A sequence of events, carried out from left to right until one of them
does not finish. -/
def run (b : Build) (layout : TypeId → Nat) : World → List Event → RunEnd
  | w, [] => .finished w
  | w, e :: es =>
    match step b layout w e with
    | .finished w1 => run b layout w1 es
    | .aborted w1 => .aborted w1
    | .notAlive => .notAlive

/-- The world at the end of a run that finished. -/
def RunEnd.world? : RunEnd → Option World
  | .finished w => some w
  | _ => none

/-- The world in which a run was aborted by a failed assertion. -/
def RunEnd.abortWorld? : RunEnd → Option World
  | .aborted w => some w
  | _ => none

/-- An address survives the constructor when converting it to `int` and back
gives the same pointer. -/
def Build.roundTrips (b : Build) (d : Ptr) : Prop := intToPtr b (ptrToInt d) = d

instance (b : Build) (d : Ptr) : Decidable (b.roundTrips d) := by
  unfold Build.roundTrips; infer_instance

/-- The slot of every type tracks the live objects of that type: no object is
alive when the slot is empty, and otherwise the object the slot refers to is
the one and only live object. -/
def World.Tracked (w : World) : Prop :=
  ∀ T, w.alive T = if w.mem.ms_Singleton T = 0 then [] else [w.mem.ms_Singleton T]

/-- The scenario "construct the object at `a`, destruct it, construct the object
at `c`, look the singleton up", each step running only if the one before
returned. -/
def reuseCycle (b : Build) (delta : Nat) (T : TypeId) (a c : Ptr) (m : Mem) : Outcome Ptr :=
  (ctor b delta T (a + delta) m).andThen fun _ m1 =>
    (dtor b T (a + delta) m1).andThen fun _ m2 =>
      (ctor b delta T (c + delta) m2).andThen fun _ m3 =>
        GetSingleton b T m3

/-- A 32-bit target compiled with `NDEBUG` defined. -/
def ilp32NDebug : Build := ⟨true, 32⟩

/-- The words of the claim about the constructor arithmetic, for 64-bit
pointers: an address is truncated to its low 32 bits, and those are
sign-extended back to 64 bits (bit 31 set fills the upper 32 bits with ones). -/
def truncateThenSignExtend (d : Nat) : Nat :=
  if d % 4294967296 < 2147483648 then d % 4294967296
  else d % 4294967296 + (18446744073709551616 - 4294967296)

/-! ## Arithmetic of the constructor -/

theorem wrapInt_emod (z : Int) : wrapInt z % 4294967296 = z % 4294967296 := by
  unfold wrapInt; omega

theorem wrapInt_congr {x y : Int} (h : x % 4294967296 = y % 4294967296) :
    wrapInt x = wrapInt y := by
  unfold wrapInt; omega

theorem wrapInt_modEq (z : Int) : wrapInt z ≡ z [ZMOD 4294967296] := wrapInt_emod z

theorem two_pow_ptrBits_dvd {n : Nat} (h : 32 ≤ n) : (4294967296 : Int) ∣ Int.ofNat (2 ^ n) := by
  obtain ⟨k, rfl⟩ := Nat.exists_eq_add_of_le h
  refine ⟨Int.ofNat (2 ^ k), ?_⟩
  simp [pow_add]

theorem upcast_one_emod (b : Build) (h : 32 ≤ b.ptrBits) (delta : Nat) :
    Int.ofNat (upcast b delta 1) % 4294967296 = (1 + Int.ofNat delta) % 4294967296 := by
  have hd := two_pow_ptrBits_dvd h
  unfold upcast
  simp only [one_ne_zero, if_false]
  have : Int.ofNat ((1 + delta) % 2 ^ b.ptrBits)
      = (1 + Int.ofNat delta) % Int.ofNat (2 ^ b.ptrBits) := by
    simp
  rw [this, Int.emod_emod_of_dvd _ hd]

/-- The value the constructor converts back to a pointer is the `int` image of
the complete object's address: the offset undoes the sub-object displacement. -/
theorem ctor_int_sum (b : Build) (h : 32 ≤ b.ptrBits) (d delta : Nat) :
    wrapInt (ptrToInt (d + delta) + ctorOffset b delta) = ptrToInt d := by
  have hu : Int.ofNat (upcast b delta 1) ≡ 1 + Int.ofNat delta [ZMOD 4294967296] :=
    upcast_one_emod b h delta
  unfold ctorOffset ptrToInt
  apply wrapInt_congr
  have h1 := wrapInt_modEq (Int.ofNat (d + delta))
  have h2 := wrapInt_modEq (wrapInt (Int.ofNat 1) - wrapInt (Int.ofNat (upcast b delta 1)))
  have h3 := wrapInt_modEq (Int.ofNat 1)
  have h4 := (wrapInt_modEq (Int.ofNat (upcast b delta 1))).trans hu
  have h5 := h1.add (h2.trans (h3.sub h4))
  have h6 : Int.ofNat (d + delta) + (Int.ofNat 1 - (1 + Int.ofNat delta)) = Int.ofNat d := by
    simp only [Int.ofNat_eq_coe]; push_cast; ring
  rw [h6] at h5
  exact h5

/-- What the constructor does when its assertion passes or is compiled out: it
stores the complete object's address after a trip through `int`. -/
theorem ctor_stores (b : Build) (h : 32 ≤ b.ptrBits) (delta : Nat) (T : TypeId) (d : Nat)
    (m : Mem) (hm : b.ndebug = true ∨ m.ms_Singleton T = 0) :
    ctor b delta T (d + delta) m = .ok () (m.set T (intToPtr b (ptrToInt d))) := by
  unfold ctor assert
  rcases hm with hm | hm
  · simp [hm, Outcome.andThen, ctor_int_sum b h]
  · simp [hm, Outcome.andThen, ctor_int_sum b h]

/-- With pointers as wide as `int`, every address survives the constructor. -/
theorem roundTrips_of_ptrBits_32 (b : Build) (h : b.ptrBits = 32) (d : Nat)
    (hd : d < 2 ^ b.ptrBits) : b.roundTrips d := by
  unfold Build.roundTrips intToPtr ptrToInt wrapInt
  rw [h] at hd ⊢
  norm_num at hd ⊢
  have hz : (((d : Int) + 2147483648) % 4294967296 - 2147483648) % 4294967296 = (d : Int) := by
    omega
  rw [hz, Int.toNat_ofNat]

/-- With an address that survives the trip through `int`, the constructor on an
empty slot makes the slot refer to the complete object. -/
theorem ctor_stores_of_roundTrips (b : Build) (h : 32 ≤ b.ptrBits) (delta : Nat) (T : TypeId)
    (d : Nat) (m : Mem) (hm : b.ndebug = true ∨ m.ms_Singleton T = 0) (hd : b.roundTrips d) :
    ctor b delta T (d + delta) m = .ok () (m.set T d) := by
  rw [ctor_stores b h delta T d m hm, show intToPtr b (ptrToInt d) = d from hd]

theorem set_same (m : Mem) (T : TypeId) (p : Ptr) : (m.set T p).ms_Singleton T = p := by
  simp [Mem.set]

theorem set_other (m : Mem) (T U : TypeId) (p : Ptr) (h : U ≠ T) :
    (m.set T p).ms_Singleton U = m.ms_Singleton U := by
  simp [Mem.set, h]

theorem GetSingleton_of_occupied (b : Build) (T : TypeId) (m : Mem) (h : m.ms_Singleton T ≠ 0) :
    GetSingleton b T m = .ok (m.ms_Singleton T) m := by
  unfold GetSingleton assert
  by_cases hn : b.ndebug = true <;> simp [hn, h, Outcome.andThen]

theorem GetSingleton_of_empty (b : Build) (hb : b.ndebug = false) (T : TypeId) (m : Mem)
    (h : m.ms_Singleton T = 0) : GetSingleton b T m = .abort m := by
  unfold GetSingleton assert
  simp [hb, h, Outcome.andThen]

theorem dtor_of_occupied (b : Build) (T : TypeId) (this : Ptr) (m : Mem)
    (h : m.ms_Singleton T ≠ 0) : dtor b T this m = .ok () (m.set T 0) := by
  unfold dtor assert
  by_cases hn : b.ndebug = true <;> simp [hn, h, Outcome.andThen]

theorem dtor_of_empty (b : Build) (hb : b.ndebug = false) (T : TypeId) (this : Ptr) (m : Mem)
    (h : m.ms_Singleton T = 0) : dtor b T this m = .abort m := by
  unfold dtor assert
  simp [hb, h, Outcome.andThen]

theorem ctor_of_occupied (b : Build) (hb : b.ndebug = false) (delta : Nat) (T : TypeId)
    (this : Ptr) (m : Mem) (h : m.ms_Singleton T ≠ 0) : ctor b delta T this m = .abort m := by
  unfold ctor assert
  simp [hb, h, Outcome.andThen]

theorem ctor_of_empty (b : Build) (delta : Nat) (T : TypeId) (this : Ptr) (m : Mem)
    (h : m.ms_Singleton T = 0) :
    ctor b delta T this m
      = .ok () (m.set T (intToPtr b (wrapInt (ptrToInt this + ctorOffset b delta)))) := by
  unfold ctor assert
  by_cases hn : b.ndebug = true <;> simp [hn, h, Outcome.andThen]

/-! ## The constructor and the accessors -/

/-- C1, evaluated on the code. On a 64-bit target with assertions, a complete
object at address `0x100000010` whose `Singleton<T>` sub-object lies 8 bytes in
(or 0 bytes in) is constructed on an empty slot: the constructor returns, and
`GetSingleton` then returns a reference to address `0x10`, not to the object. -/
theorem ctor_GetSingleton_truncates_address :
    initMem.ms_Singleton 0 = 0 ∧
    (ctor llp64 8 0 (4294967312 + 8) initMem).aborted = false ∧
    (GetSingleton llp64 0 (ctor llp64 8 0 (4294967312 + 8) initMem).mem).val? = some 16 ∧
    (ctor llp64 0 0 (4294967312 + 0) initMem).aborted = false ∧
    (GetSingleton llp64 0 (ctor llp64 0 0 (4294967312 + 0) initMem).mem).val? = some 16 := by
  decide

/-- Where C1 does hold: for an address that survives the conversion to `int`
and back, and any sub-object offset, the constructor on an empty slot returns
and `GetSingleton` then returns the complete object. -/
theorem GetSingleton_after_ctor (b : Build) (h : 32 ≤ b.ptrBits) (delta : Nat) (T : TypeId)
    (d : Nat) (m : Mem) (hm : m.ms_Singleton T = 0) (hd0 : d ≠ 0) (hd : b.roundTrips d) :
    ctor b delta T (d + delta) m = .ok () (m.set T d) ∧
    GetSingleton b T (ctor b delta T (d + delta) m).mem = .ok d (m.set T d) := by
  have hc := ctor_stores_of_roundTrips b h delta T d m (Or.inr hm) hd
  refine ⟨hc, ?_⟩
  rw [hc]
  have := GetSingleton_of_occupied b T (m.set T d) (by rw [set_same]; exact hd0)
  rw [set_same] at this
  exact this

/-- Where C1 does hold: with pointers as wide as `int`, every complete object
and every sub-object offset. -/
theorem GetSingleton_after_ctor_ptrBits_32 (b : Build) (h : b.ptrBits = 32) (delta : Nat)
    (T : TypeId) (d : Nat) (m : Mem) (hm : m.ms_Singleton T = 0) (hd0 : d ≠ 0)
    (hd : d < 2 ^ b.ptrBits) :
    GetSingleton b T (ctor b delta T (d + delta) m).mem = .ok d (m.set T d) :=
  (GetSingleton_after_ctor b (by omega) delta T d m hm hd0
    (roundTrips_of_ptrBits_32 b h d hd)).2

/-- C2, refuted on the code. On a target compiled with `NDEBUG` defined, a first
object at `4096` is constructed, so the slot refers to it; a second object at
`8192` is then constructed: the constructor returns and the slot is overwritten,
it refers to `8192` and no longer to `4096`. -/
theorem ctor_overwrites_occupied_slot_with_NDEBUG :
    (ctor ilp32NDebug 0 0 4096 initMem).mem.ms_Singleton 0 = 4096 ∧
    (ctor ilp32NDebug 0 0 8192 (ctor ilp32NDebug 0 0 4096 initMem).mem).aborted = false ∧
    (ctor ilp32NDebug 0 0 8192 (ctor ilp32NDebug 0 0 4096 initMem).mem).mem.ms_Singleton 0
      = 8192 ∧
    (ctor ilp32NDebug 0 0 8192 (ctor ilp32NDebug 0 0 4096 initMem).mem).mem.ms_Singleton 0
      ≠ 4096 := by
  decide

/-- C2 as amended. In every build in which `NDEBUG` is not defined: when the
slot of `T` refers to an instance `a`, the constructor of another instance
aborts on its assertion with the memory untouched, so the slot still refers to
`a`; and the constructor aborts only when the slot is occupied. -/
theorem ctor_aborts_on_occupied_slot (b : Build) (hb : b.ndebug = false) (delta : Nat)
    (T : TypeId) (this : Ptr) (m : Mem) :
    (∀ a : Ptr, a ≠ 0 → m.ms_Singleton T = a →
      ctor b delta T this m = .abort m ∧
      (ctor b delta T this m).mem.ms_Singleton T = a) ∧
    ((ctor b delta T this m).aborted = true → m.ms_Singleton T ≠ 0) := by
  constructor
  · intro a ha hm
    have hc := ctor_of_occupied b hb delta T this m (by rw [hm]; exact ha)
    rw [hc]
    exact ⟨rfl, hm⟩
  · intro hab hm
    rw [ctor_of_empty b delta T this m hm] at hab
    simp [Outcome.aborted] at hab

/-- C2 as amended, at a concrete input: a first object at `4096` is registered,
then a second object at `8192` is constructed. -/
theorem ctor_aborts_on_occupied_slot_witness :
    ctor ilp32 0 0 8192 (ctor ilp32 0 0 4096 initMem).mem
        = .abort (ctor ilp32 0 0 4096 initMem).mem ∧
    (ctor ilp32 0 0 8192 (ctor ilp32 0 0 4096 initMem).mem).mem.ms_Singleton 0 = 4096 :=
  (ctor_aborts_on_occupied_slot ilp32 rfl 0 0 8192 (ctor ilp32 0 0 4096 initMem).mem).1
    4096 (by decide) (by decide)

/-- C3, refuted on the code. On a target compiled with `NDEBUG` defined, the slot
is empty and `GetSingleton` does not abort: it returns, a reference through the
null pointer. -/
theorem GetSingleton_returns_on_empty_slot_with_NDEBUG :
    initMem.ms_Singleton 0 = 0 ∧
    (GetSingleton ilp32NDebug 0 initMem).aborted = false ∧
    (GetSingleton ilp32NDebug 0 initMem).val? = some 0 := by
  decide

/-- C3 as amended. In every build in which `NDEBUG` is not defined:
`GetSingleton` aborts exactly when the slot of `T` is empty, and when the slot
is occupied it returns the tracked instance and leaves the memory as it was. -/
theorem GetSingleton_aborts_iff_empty (b : Build) (hb : b.ndebug = false) (T : TypeId)
    (m : Mem) :
    ((GetSingleton b T m).aborted = true ↔ m.ms_Singleton T = 0) ∧
    (m.ms_Singleton T ≠ 0 → GetSingleton b T m = .ok (m.ms_Singleton T) m) := by
  refine ⟨⟨?_, ?_⟩, GetSingleton_of_occupied b T m⟩
  · intro hab
    by_contra hne
    rw [GetSingleton_of_occupied b T m hne] at hab
    simp [Outcome.aborted] at hab
  · intro hm
    rw [GetSingleton_of_empty b hb T m hm]
    rfl

/-- C3 as amended, at concrete inputs: the initial memory (empty slot) and a
memory whose slot refers to `4096`. -/
theorem GetSingleton_aborts_iff_empty_witness :
    ((GetSingleton ilp32 0 initMem).aborted = true ↔ initMem.ms_Singleton 0 = 0) ∧
    GetSingleton ilp32 0 (initMem.set 0 4096)
        = .ok ((initMem.set 0 4096).ms_Singleton 0) (initMem.set 0 4096) :=
  ⟨(GetSingleton_aborts_iff_empty ilp32 rfl 0 initMem).1,
   (GetSingleton_aborts_iff_empty ilp32 rfl 0 (initMem.set 0 4096)).2 (by decide)⟩

/-- C4. In every build, `GetSingletonPointer` returns without aborting and
without changing the memory: the tracked pointer when the slot is occupied, the
null pointer when the slot is empty. -/
theorem GetSingletonPointer_never_fails (T : TypeId) (m : Mem) :
    (GetSingletonPointer T m).aborted = false ∧
    (m.ms_Singleton T ≠ 0 → GetSingletonPointer T m = .ok (m.ms_Singleton T) m) ∧
    (m.ms_Singleton T = 0 → GetSingletonPointer T m = .ok 0 m) := by
  refine ⟨rfl, fun _ => rfl, fun h => ?_⟩
  unfold GetSingletonPointer
  rw [h]

/-- C4 at concrete inputs: a slot referring to `4096` and the empty slot. -/
theorem GetSingletonPointer_never_fails_witness :
    GetSingletonPointer 0 (initMem.set 0 4096)
        = .ok ((initMem.set 0 4096).ms_Singleton 0) (initMem.set 0 4096) ∧
    GetSingletonPointer 0 initMem = .ok 0 initMem :=
  ⟨(GetSingletonPointer_never_fails 0 (initMem.set 0 4096)).2.1 (by decide),
   (GetSingletonPointer_never_fails 0 initMem).2.2 rfl⟩

/-- C5, refuted on the code. On a target compiled with `NDEBUG` defined, the
slot refers to the instance at `4096`, which is destructed: the destructor
returns and the slot is empty, and `GetSingleton` afterwards does not abort. On
a 64-bit target with assertions the scenario of the claim fails as well: after
constructing `w` at `0x100000010` the lookup gives `0x10`, not `w`, and after
constructing `w` at `0x100000000` its destruction aborts. -/
theorem GetSingleton_returns_after_dtor_with_NDEBUG :
    (initMem.set 0 4096).ms_Singleton 0 = 4096 ∧
    (dtor ilp32NDebug 0 4096 (initMem.set 0 4096)).aborted = false ∧
    (dtor ilp32NDebug 0 4096 (initMem.set 0 4096)).mem.ms_Singleton 0 = 0 ∧
    (GetSingleton ilp32NDebug 0
        (dtor ilp32NDebug 0 4096 (initMem.set 0 4096)).mem).aborted = false ∧
    (GetSingleton llp64 0 (ctor llp64 0 0 4294967312 initMem).mem).val? = some 16 ∧
    (dtor llp64 0 4294967296 (ctor llp64 0 0 4294967296 initMem).mem).aborted = true := by
  decide

/-- C5 as amended. In every build, when the slot of `T` refers to an instance
`a`, the destructor returns and leaves the slot empty; afterwards
`GetSingletonPointer` returns null, and in a build in which `NDEBUG` is not
defined `GetSingleton` aborts. The scenario, for an object `a` at a non-null
address that survives the conversion to `int` and back, constructed on an empty
slot with its sub-object `delta` bytes in: the constructor returns, the lookup
returns `a`, the destructor returns, and `GetSingletonPointer` returns null. -/
theorem dtor_clears_slot (b : Build) (T : TypeId) (delta : Nat) (a : Nat) (this : Ptr)
    (m : Mem) (ha : a ≠ 0) :
    (m.ms_Singleton T = a →
      dtor b T this m = .ok () (m.set T 0) ∧
      (dtor b T this m).mem.ms_Singleton T = 0 ∧
      GetSingletonPointer T (dtor b T this m).mem = .ok 0 (dtor b T this m).mem ∧
      (b.ndebug = false →
        GetSingleton b T (dtor b T this m).mem = .abort (dtor b T this m).mem)) ∧
    (32 ≤ b.ptrBits → m.ms_Singleton T = 0 → b.roundTrips a →
      ctor b delta T (a + delta) m = .ok () (m.set T a) ∧
      GetSingleton b T (m.set T a) = .ok a (m.set T a) ∧
      dtor b T (a + delta) (m.set T a) = .ok () ((m.set T a).set T 0) ∧
      GetSingletonPointer T ((m.set T a).set T 0) = .ok 0 ((m.set T a).set T 0)) := by
  constructor
  · intro hm
    have hd := dtor_of_occupied b T this m (by rw [hm]; exact ha)
    have h0 : (dtor b T this m).mem.ms_Singleton T = 0 := by
      rw [hd]; exact set_same m T 0
    refine ⟨hd, h0, ?_, fun hb => GetSingleton_of_empty b hb T _ h0⟩
    unfold GetSingletonPointer
    rw [h0]
  · intro h32 hm hrt
    have hg := GetSingleton_of_occupied b T (m.set T a) (by rw [set_same]; exact ha)
    rw [set_same] at hg
    refine ⟨ctor_stores_of_roundTrips b h32 delta T a m (Or.inr hm) hrt, hg,
      dtor_of_occupied b T (a + delta) (m.set T a) (by rw [set_same]; exact ha), ?_⟩
    unfold GetSingletonPointer
    rw [set_same]

/-- C5 as amended, at a concrete input on a 32-bit target with assertions: the
object `w` at `4096` with its `Singleton<T>` sub-object at offset 8 is
constructed, the lookup returns `w`, `w` is destructed, `GetSingletonPointer`
returns null and `GetSingleton` aborts. -/
theorem dtor_clears_slot_witness :
    (ctor ilp32 8 0 (4096 + 8) initMem = .ok () (initMem.set 0 4096) ∧
      GetSingleton ilp32 0 (initMem.set 0 4096) = .ok 4096 (initMem.set 0 4096) ∧
      dtor ilp32 0 (4096 + 8) (initMem.set 0 4096)
        = .ok () ((initMem.set 0 4096).set 0 0) ∧
      GetSingletonPointer 0 ((initMem.set 0 4096).set 0 0)
        = .ok 0 ((initMem.set 0 4096).set 0 0)) ∧
    GetSingleton ilp32 0 (dtor ilp32 0 (4096 + 8) (initMem.set 0 4096)).mem
      = .abort (dtor ilp32 0 (4096 + 8) (initMem.set 0 4096)).mem :=
  ⟨(dtor_clears_slot ilp32 0 8 4096 (4096 + 8) initMem (by decide)).2
      (by decide) rfl (by decide),
   ((dtor_clears_slot ilp32 0 8 4096 (4096 + 8) (initMem.set 0 4096) (by decide)).1
      (by decide)).2.2.2 rfl⟩

/-! ## Runs of constructions and destructions -/

theorem step_tracked (b : Build) (hb : b.ndebug = false) (h32 : 32 ≤ b.ptrBits)
    (layout : TypeId → Nat) (w : World) (e : Event) (hw : w.Tracked)
    (he : ∀ T d, e = .construct T d → d ≠ 0 ∧ b.roundTrips d)
    (w1 : World) (hs : step b layout w e = .finished w1) : w1.Tracked := by
  cases e with
  | construct T d =>
    obtain ⟨hd0, hd⟩ := he T d rfl
    by_cases hm : w.mem.ms_Singleton T = 0
    · have hc := ctor_stores_of_roundTrips b h32 (layout T) T d w.mem (Or.inr hm) hd
      simp only [step, hc, RunEnd.finished.injEq] at hs
      subst hs
      intro U
      by_cases hU : U = T
      · subst hU
        have := hw U
        simp only [hm, if_true] at this
        simp [World.born, Mem.set, this, hd0]
      · have := hw U
        simp [World.born, Mem.set, hU, this]
    · have hc := ctor_of_occupied b hb (layout T) T (d + layout T) w.mem hm
      simp [step, hc] at hs
  | destruct T d =>
    by_cases hmem : d ∈ w.alive T
    · have hT := hw T
      by_cases hm : w.mem.ms_Singleton T = 0
      · simp [hT, hm] at hmem
      · simp only [hm, if_false] at hT
        have hdeq : d = w.mem.ms_Singleton T := by
          rw [hT] at hmem
          simpa using hmem
        have hc := dtor_of_occupied b T (d + layout T) w.mem hm
        simp only [step, hmem, if_true, hc, RunEnd.finished.injEq] at hs
        subst hs
        intro U
        by_cases hU : U = T
        · subst hU
          simp [World.died, Mem.set, hT, hdeq]
        · have := hw U
          simp [World.died, Mem.set, hU, this]
    · simp [step, hmem] at hs

/-- Where C6 does hold: with assertions compiled in and every constructed
object at a non-null address that survives the conversion to `int` and back,
every world reached by a run from a tracked world is tracked. -/
theorem run_tracked (b : Build) (hb : b.ndebug = false) (h32 : 32 ≤ b.ptrBits)
    (layout : TypeId → Nat) (es : List Event)
    (hes : ∀ T d, Event.construct T d ∈ es → d ≠ 0 ∧ b.roundTrips d) :
    ∀ w : World, w.Tracked → ∀ w1 : World, run b layout w es = .finished w1 → w1.Tracked := by
  induction es with
  | nil =>
    intro w hw w1 hr
    simp only [run, RunEnd.finished.injEq] at hr
    subst hr
    exact hw
  | cons e es ih =>
    intro w hw w1 hr
    simp only [run] at hr
    cases hs : step b layout w e with
    | finished w2 =>
      rw [hs] at hr
      have h2 := step_tracked b hb h32 layout w e hw
        (fun T d hed => hes T d (by rw [hed]; exact List.mem_cons_self _ _)) w2 hs
      exact ih (fun T d hmem => hes T d (List.mem_cons_of_mem _ hmem)) w2 h2 w1 hr
    | aborted w2 => rw [hs] at hr; cases hr
    | notAlive => rw [hs] at hr; cases hr

theorem initWorld_tracked : initWorld.Tracked := by
  intro T
  simp [initWorld, initMem]

/-- C6, evaluated on the code. On a 64-bit target with assertions, from the
initial world: after constructing an object at `0x100000010` the slot refers to
`0x10`, where no object is alive; after constructing an object at `0x100000000`
the slot is empty although that object is alive, and a second object can then be
constructed at `0x200000010` while the first is alive. -/
theorem run_slot_not_the_live_instance :
    ((run llp64 (fun _ => 0) initWorld [.construct 0 4294967312]).world?.map
        fun w => (w.mem.ms_Singleton 0, w.alive 0)) = some (16, [4294967312]) ∧
    ((run llp64 (fun _ => 0) initWorld [.construct 0 4294967296]).world?.map
        fun w => (w.mem.ms_Singleton 0, w.alive 0)) = some (0, [4294967296]) ∧
    ((run llp64 (fun _ => 0) initWorld
        [.construct 0 4294967296, .construct 0 8589934608]).world?.map
        fun w => (w.mem.ms_Singleton 0, w.alive 0)) = some (16, [8589934608, 4294967296]) := by
  decide

/-- C7, evaluated on the code. On a 64-bit target with assertions, from the
empty slot: constructing `a = 0x100000010`, destructing it and constructing
`c = 0x200000020` all return, and `GetSingleton` then returns `0x20`, not `c`;
with `a = 0x100000000` the destruction of `a` aborts. -/
theorem reuseCycle_truncates_address :
    initMem.ms_Singleton 0 = 0 ∧
    (reuseCycle llp64 0 0 4294967312 8589934624 initMem).val? = some 32 ∧
    (dtor llp64 0 4294967296 (ctor llp64 0 0 4294967296 initMem).mem).aborted = true ∧
    (reuseCycle llp64 0 0 4294967296 4096 initMem).aborted = true := by
  decide

/-- Where C7 does hold: with assertions compiled in or not, for non-null
addresses `a` and `c` that survive the conversion to `int` and back, the cycle
from an empty slot returns `c`. -/
theorem reuseCycle_returns_new (b : Build) (h32 : 32 ≤ b.ptrBits) (delta : Nat) (T : TypeId)
    (a c : Nat) (m : Mem) (hm : m.ms_Singleton T = 0) (ha0 : a ≠ 0) (hc0 : c ≠ 0)
    (ha : b.roundTrips a) (hc : b.roundTrips c) :
    ctor b delta T (a + delta) m = .ok () (m.set T a) ∧
    dtor b T (a + delta) (m.set T a) = .ok () ((m.set T a).set T 0) ∧
    ctor b delta T (c + delta) ((m.set T a).set T 0) = .ok () (((m.set T a).set T 0).set T c) ∧
    reuseCycle b delta T a c m = .ok c (((m.set T a).set T 0).set T c) := by
  have h1 := ctor_stores_of_roundTrips b h32 delta T a m (Or.inr hm) ha
  have h2 := dtor_of_occupied b T (a + delta) (m.set T a) (by rw [set_same]; exact ha0)
  have h3 := ctor_stores_of_roundTrips b h32 delta T c ((m.set T a).set T 0)
    (Or.inr (set_same _ T 0)) hc
  have h4 := GetSingleton_of_occupied b T (((m.set T a).set T 0).set T c)
    (by rw [set_same]; exact hc0)
  rw [set_same] at h4
  refine ⟨h1, h2, h3, ?_⟩
  simp only [reuseCycle, h1, h2, h3, h4, Outcome.andThen]

/-! ## Frame properties -/

/-- C8. For distinct tracked types `T1` and `T2`, in every build and every
memory, the constructor and the destructor of `Singleton<T1>` leave the slot of
`T2` as it was, whether they return or abort, and those of `Singleton<T2>` leave
the slot of `T1` as it was. -/
theorem other_slot_unchanged (b : Build) (T1 T2 : TypeId) (h : T1 ≠ T2) (delta : Nat)
    (this : Ptr) (m : Mem) :
    (ctor b delta T1 this m).mem.ms_Singleton T2 = m.ms_Singleton T2 ∧
    (dtor b T1 this m).mem.ms_Singleton T2 = m.ms_Singleton T2 ∧
    (ctor b delta T2 this m).mem.ms_Singleton T1 = m.ms_Singleton T1 ∧
    (dtor b T2 this m).mem.ms_Singleton T1 = m.ms_Singleton T1 := by
  have h21 : T2 ≠ T1 := fun e => h e.symm
  refine ⟨?_, ?_, ?_, ?_⟩
  · unfold ctor assert
    by_cases hn : b.ndebug = true <;> by_cases hm : m.ms_Singleton T1 = 0 <;>
      simp [hn, hm, Outcome.andThen, Outcome.mem, Mem.set, h21]
  · unfold dtor assert
    by_cases hn : b.ndebug = true <;> by_cases hm : m.ms_Singleton T1 = 0 <;>
      simp [hn, hm, Outcome.andThen, Outcome.mem, Mem.set, h21]
  · unfold ctor assert
    by_cases hn : b.ndebug = true <;> by_cases hm : m.ms_Singleton T2 = 0 <;>
      simp [hn, hm, Outcome.andThen, Outcome.mem, Mem.set, h]
  · unfold dtor assert
    by_cases hn : b.ndebug = true <;> by_cases hm : m.ms_Singleton T2 = 0 <;>
      simp [hn, hm, Outcome.andThen, Outcome.mem, Mem.set, h]

/-- C8 at a concrete input: types `0` and `1`, the slot of `1` empty; an object
of type `0` is constructed at `4096` and destructed. -/
theorem other_slot_unchanged_witness :
    (ctor ilp32 0 0 4096 initMem).mem.ms_Singleton 1 = initMem.ms_Singleton 1 ∧
    (dtor ilp32 0 4096 (initMem.set 0 4096)).mem.ms_Singleton 1
      = (initMem.set 0 4096).ms_Singleton 1 :=
  ⟨(other_slot_unchanged ilp32 0 1 (by decide) 0 4096 initMem).1,
   (other_slot_unchanged ilp32 0 1 (by decide) 0 4096 (initMem.set 0 4096)).2.1⟩

/-- C9. In the initial memory the slot of every type `T` is empty, and
`GetSingletonPointer` returns the null pointer. -/
theorem GetSingletonPointer_initially_null (T : TypeId) :
    initMem.ms_Singleton T = 0 ∧ GetSingletonPointer T initMem = .ok 0 initMem :=
  ⟨rfl, rfl⟩

theorem GetSingleton_mem (b : Build) (T : TypeId) (m : Mem) : (GetSingleton b T m).mem = m := by
  unfold GetSingleton assert
  by_cases hn : b.ndebug = true <;> by_cases hm : m.ms_Singleton T = 0 <;>
    simp [hn, hm, Outcome.andThen, Outcome.mem]

/-- C10. In every build and every memory, `GetSingleton` (returning or
aborting) and `GetSingletonPointer` leave the memory as it was, so after any
number `n` of lookups the memory is the same and one more lookup gives the same
result as the first. -/
theorem lookups_leave_memory_unchanged (b : Build) (T : TypeId) (m : Mem) :
    (GetSingleton b T m).mem = m ∧
    (GetSingletonPointer T m).mem = m ∧
    ∀ n : Nat,
      (fun x => (GetSingleton b T x).mem)^[n] m = m ∧
      (fun x => (GetSingletonPointer T x).mem)^[n] m = m ∧
      GetSingleton b T ((fun x => (GetSingleton b T x).mem)^[n] m) = GetSingleton b T m ∧
      GetSingletonPointer T ((fun x => (GetSingletonPointer T x).mem)^[n] m)
        = GetSingletonPointer T m := by
  have h1 : (GetSingleton b T m).mem = m := GetSingleton_mem b T m
  have h2 : (GetSingletonPointer T m).mem = m := rfl
  refine ⟨h1, h2, fun n => ?_⟩
  have i1 : (fun x => (GetSingleton b T x).mem)^[n] m = m := Function.iterate_fixed h1 n
  have i2 : (fun x => (GetSingletonPointer T x).mem)^[n] m = m := Function.iterate_fixed h2 n
  refine ⟨i1, i2, ?_, ?_⟩
  · rw [i1]
  · rw [i2]

/-! ## The destructor and the other instances -/

/-- C11, refuted on the code. On a 32-bit target with assertions the slot refers
to the instance at `4096`; the destructor runs on another instance, at `8192`:
it returns and the slot is empty, it no longer refers to `4096`. With `NDEBUG`
defined the same state is reached by a run: construct `8192`, construct `4096`,
destruct `8192`, after which `4096` is alive and the slot is empty. On a 64-bit
target with assertions it is reached by the run construct `0x100000000`,
construct `4096`, destruct `0x100000000`. -/
theorem dtor_of_other_instance_clears_slot :
    (initMem.set 0 4096).ms_Singleton 0 = 4096 ∧
    (dtor ilp32 0 8192 (initMem.set 0 4096)).aborted = false ∧
    (dtor ilp32 0 8192 (initMem.set 0 4096)).mem.ms_Singleton 0 = 0 ∧
    (dtor ilp32 0 8192 (initMem.set 0 4096)).mem.ms_Singleton 0 ≠ 4096 ∧
    ((run ilp32NDebug (fun _ => 0) initWorld
        [.construct 0 8192, .construct 0 4096]).world?.map
        fun w => (w.mem.ms_Singleton 0, w.alive 0)) = some (4096, [4096, 8192]) ∧
    ((run ilp32NDebug (fun _ => 0) initWorld
        [.construct 0 8192, .construct 0 4096, .destruct 0 8192]).world?.map
        fun w => (w.mem.ms_Singleton 0, w.alive 0)) = some (0, [4096]) ∧
    ((run llp64 (fun _ => 0) initWorld
        [.construct 0 4294967296, .construct 0 4096]).world?.map
        fun w => (w.mem.ms_Singleton 0, w.alive 0)) = some (4096, [4096, 4294967296]) ∧
    ((run llp64 (fun _ => 0) initWorld
        [.construct 0 4294967296, .construct 0 4096, .destruct 0 4294967296]).world?.map
        fun w => (w.mem.ms_Singleton 0, w.alive 0)) = some (0, [4096]) := by
  decide

/-- C11 as amended. The destructor does not look at the instance it runs on: in
every build, when the slot of `T` refers to an instance `a`, the destructor of
any other instance `c` of `T` (its sub-object at `c + delta`) returns and leaves
the slot empty, so the slot no longer refers to `a`. -/
theorem dtor_empties_slot_for_other_instance (b : Build) (T : TypeId) (delta : Nat) (a c : Ptr)
    (m : Mem) (ha : a ≠ 0) (hm : m.ms_Singleton T = a) (hc : c ≠ a) :
    dtor b T (c + delta) m = .ok () (m.set T 0) ∧
    (dtor b T (c + delta) m).mem.ms_Singleton T = 0 ∧
    (dtor b T (c + delta) m).mem.ms_Singleton T ≠ a := by
  have _ := hc
  have hd := dtor_of_occupied b T (c + delta) m (by rw [hm]; exact ha)
  have h0 : (dtor b T (c + delta) m).mem.ms_Singleton T = 0 := by
    rw [hd]; exact set_same m T 0
  exact ⟨hd, h0, by rw [h0]; exact fun e => ha e.symm⟩

/-- C11 as amended, at a concrete input: the slot refers to `4096` and the
destructor runs on the instance at `8192`, whose sub-object lies 8 bytes in. -/
theorem dtor_empties_slot_for_other_instance_witness :
    dtor ilp32 0 (8192 + 8) (initMem.set 0 4096) = .ok () ((initMem.set 0 4096).set 0 0) ∧
    (dtor ilp32 0 (8192 + 8) (initMem.set 0 4096)).mem.ms_Singleton 0 = 0 ∧
    (dtor ilp32 0 (8192 + 8) (initMem.set 0 4096)).mem.ms_Singleton 0 ≠ 4096 :=
  dtor_empties_slot_for_other_instance ilp32 0 8 4096 8192 (initMem.set 0 4096)
    (by decide) (by decide) (by decide)

/-- In a tracked world every live instance of `T` is the one the slot refers
to, and the slot is occupied whenever an instance of `T` is alive. -/
theorem alive_eq_slot_of_tracked (w : World) (hw : w.Tracked) (T : TypeId) (d : Ptr)
    (hd : d ∈ w.alive T) : w.mem.ms_Singleton T ≠ 0 ∧ d = w.mem.ms_Singleton T := by
  have hT := hw T
  by_cases hm : w.mem.ms_Singleton T = 0
  · simp [hT, hm] at hd
  · simp only [hm, if_false] at hT
    rw [hT] at hd
    exact ⟨hm, by simpa using hd⟩

/-! ## The state machine of one slot -/

/-- C12, evaluated on the code. On a 64-bit target with assertions, the slot is
empty and an object at `0x100000000` is constructed: the constructor returns and
the slot is still empty, not occupied. -/
theorem ctor_leaves_slot_empty :
    initMem.ms_Singleton 0 = 0 ∧
    (ctor llp64 0 0 (4294967296 + 0) initMem).aborted = false ∧
    (ctor llp64 0 0 (4294967296 + 0) initMem).mem.ms_Singleton 0 = 0 ∧
    (ctor llp64 8 0 (4294967296 + 8) initMem).aborted = false ∧
    (ctor llp64 8 0 (4294967296 + 8) initMem).mem.ms_Singleton 0 = 0 := by
  decide

/-- Where C12 does hold: with assertions compiled in, the constructor returns
exactly when the slot is empty and the destructor returns exactly when the slot
is occupied; a returning destructor leaves the slot empty; a returning
constructor leaves it occupied when the object's address is non-null and
survives the conversion to `int` and back. -/
theorem transitions_with_assertions (b : Build) (hb : b.ndebug = false) (h32 : 32 ≤ b.ptrBits)
    (delta : Nat) (T : TypeId) (d : Nat) (m : Mem) :
    ((ctor b delta T (d + delta) m).aborted = false ↔ m.ms_Singleton T = 0) ∧
    (m.ms_Singleton T = 0 → d ≠ 0 → b.roundTrips d →
      (ctor b delta T (d + delta) m).mem.ms_Singleton T ≠ 0) ∧
    ((dtor b T (d + delta) m).aborted = false ↔ m.ms_Singleton T ≠ 0) ∧
    (m.ms_Singleton T ≠ 0 → (dtor b T (d + delta) m).mem.ms_Singleton T = 0) := by
  refine ⟨⟨?_, ?_⟩, ?_, ⟨?_, ?_⟩, ?_⟩
  · intro h
    by_contra hm
    rw [ctor_of_occupied b hb delta T (d + delta) m hm] at h
    simp [Outcome.aborted] at h
  · intro hm
    rw [ctor_of_empty b delta T (d + delta) m hm]
    rfl
  · intro hm hd0 hd
    rw [ctor_stores_of_roundTrips b h32 delta T d m (Or.inr hm) hd]
    simp [Outcome.mem, Mem.set, hd0]
  · intro h hm
    rw [dtor_of_empty b hb T (d + delta) m hm] at h
    simp [Outcome.aborted] at h
  · intro hm
    rw [dtor_of_occupied b T (d + delta) m hm]
    rfl
  · intro hm
    rw [dtor_of_occupied b T (d + delta) m hm]
    exact set_same m T 0

/-- C13, evaluated on the code. On a 64-bit target with assertions, from the
initial world: an object at `0x100000000` is constructed, which returns and
leaves it alive with the slot empty; its destruction then fails
`assert(ms_Singleton)` and the run is aborted. -/
theorem dtor_assertion_fails_in_run :
    ((run llp64 (fun _ => 0) initWorld [.construct 0 4294967296]).world?.map
        fun w => (w.alive 0, w.mem.ms_Singleton 0,
          (dtor llp64 0 (4294967296 + 0) w.mem).aborted)) = some ([4294967296], 0, true) ∧
    ((run llp64 (fun _ => 0) initWorld
        [.construct 0 4294967296, .destruct 0 4294967296]).abortWorld?.map
        fun w => (w.alive 0, w.mem.ms_Singleton 0)) = some ([4294967296], 0) := by
  decide

/-- Where C13 does hold: with assertions compiled in and every constructed
object at a non-null address that survives the conversion to `int` and back,
in every world reached by a run from the initial world the destructor of a live
instance finds the slot occupied and returns. -/
theorem dtor_returns_in_runs (b : Build) (hb : b.ndebug = false) (h32 : 32 ≤ b.ptrBits)
    (layout : TypeId → Nat) (es : List Event)
    (hes : ∀ T d, Event.construct T d ∈ es → d ≠ 0 ∧ b.roundTrips d)
    (w : World) (hr : run b layout initWorld es = .finished w) (T : TypeId) (d : Ptr)
    (hd : d ∈ w.alive T) :
    w.mem.ms_Singleton T ≠ 0 ∧
    dtor b T (d + layout T) w.mem = .ok () (w.mem.set T 0) := by
  have hw := run_tracked b hb h32 layout es hes initWorld initWorld_tracked w hr
  have hm := (alive_eq_slot_of_tracked w hw T d hd).1
  exact ⟨hm, dtor_of_occupied b T (d + layout T) w.mem hm⟩

/-! ## Assertions and `NDEBUG` -/

/-- C14, refuted on the code. On a target compiled with `NDEBUG` defined: the
constructor on a slot that refers to `4096` returns and overwrites the slot with
`8192`; the destructor on an empty slot returns; `GetSingleton` on an empty slot
returns, a reference through the null pointer. -/
theorem checks_vanish_with_NDEBUG :
    (initMem.set 0 4096).ms_Singleton 0 = 4096 ∧
    (ctor ilp32NDebug 0 0 8192 (initMem.set 0 4096)).aborted = false ∧
    (ctor ilp32NDebug 0 0 8192 (initMem.set 0 4096)).mem.ms_Singleton 0 = 8192 ∧
    initMem.ms_Singleton 0 = 0 ∧
    (dtor ilp32NDebug 0 4096 initMem).aborted = false ∧
    (GetSingleton ilp32NDebug 0 initMem).aborted = false ∧
    (GetSingleton ilp32NDebug 0 initMem).val? = some 0 := by
  decide

/-- C14 as amended. The checks are the `assert` macro, which is gated by
`NDEBUG`: in every build without `NDEBUG`, construction on an occupied slot,
destruction on an empty slot and `GetSingleton` on an empty slot each abort with
the memory untouched; in every build with `NDEBUG` none of the three aborts. -/
theorem checks_active_iff_not_NDEBUG (b : Build) (delta : Nat) (T : TypeId) (this : Ptr)
    (m : Mem) :
    (b.ndebug = false →
      (m.ms_Singleton T ≠ 0 → ctor b delta T this m = .abort m) ∧
      (m.ms_Singleton T = 0 → dtor b T this m = .abort m) ∧
      (m.ms_Singleton T = 0 → GetSingleton b T m = .abort m)) ∧
    (b.ndebug = true →
      (ctor b delta T this m).aborted = false ∧
      (dtor b T this m).aborted = false ∧
      (GetSingleton b T m).aborted = false) := by
  constructor
  · intro hb
    exact ⟨ctor_of_occupied b hb delta T this m, dtor_of_empty b hb T this m,
      GetSingleton_of_empty b hb T m⟩
  · intro hb
    refine ⟨?_, ?_, ?_⟩
    · simp [ctor, assert, hb, Outcome.andThen, Outcome.aborted]
    · simp [dtor, assert, hb, Outcome.andThen, Outcome.aborted]
    · simp [GetSingleton, assert, hb, Outcome.andThen, Outcome.aborted]

/-- C14 as amended, at concrete inputs: a 32-bit build without `NDEBUG` on an
occupied and on an empty slot, and a 32-bit build with `NDEBUG`. -/
theorem checks_active_iff_not_NDEBUG_witness :
    ctor ilp32 0 0 8192 (initMem.set 0 4096) = .abort (initMem.set 0 4096) ∧
    dtor ilp32 0 8192 initMem = .abort initMem ∧
    GetSingleton ilp32 0 initMem = .abort initMem ∧
    ((ctor ilp32NDebug 0 0 8192 (initMem.set 0 4096)).aborted = false ∧
      (dtor ilp32NDebug 0 8192 (initMem.set 0 4096)).aborted = false ∧
      (GetSingleton ilp32NDebug 0 (initMem.set 0 4096)).aborted = false) :=
  ⟨((checks_active_iff_not_NDEBUG ilp32 0 0 8192 (initMem.set 0 4096)).1 rfl).1 (by decide),
   ((checks_active_iff_not_NDEBUG ilp32 0 0 8192 initMem).1 rfl).2.1 rfl,
   ((checks_active_iff_not_NDEBUG ilp32 0 0 8192 initMem).1 rfl).2.2 rfl,
   (checks_active_iff_not_NDEBUG ilp32NDebug 0 0 8192 (initMem.set 0 4096)).2 rfl⟩

/-! ## The stored pointer on a 64-bit target -/

theorem intToPtr_ptrToInt_64 (b : Build) (h : b.ptrBits = 64) (d : Nat) :
    intToPtr b (ptrToInt d) = truncateThenSignExtend d := by
  unfold intToPtr ptrToInt wrapInt truncateThenSignExtend
  rw [h]
  norm_num
  split_ifs with hlt
  · have hz : (((d : Int) + 2147483648) % 4294967296 - 2147483648) % 18446744073709551616
        = ((d % 4294967296 : Nat) : Int) := by
      omega
    rw [hz, Int.toNat_ofNat]
  · have hz : (((d : Int) + 2147483648) % 4294967296 - 2147483648) % 18446744073709551616
        = ((d % 4294967296 + 18446744069414584320 : Nat) : Int) := by
      omega
    rw [hz, Int.toNat_ofNat]

theorem truncateThenSignExtend_fixed_iff (d : Nat) :
    truncateThenSignExtend d = d ↔
      d < 2147483648 ∨ (18446744071562067968 ≤ d ∧ d < 18446744073709551616) := by
  unfold truncateThenSignExtend
  split_ifs with hlt <;> omega

/-- C15. With 64-bit pointers (and `int` 32-bit two's complement, wrapping), for
every complete-object address `d` and every sub-object offset `delta`, with
`this = d + delta`: the pointer `(T*)((int)this + offset)` is `d` truncated to
32 bits and sign-extended, so it equals `d` if and only if `d` is unchanged by
truncation followed by sign extension; and it is what the constructor stores in
the slot when it finds the slot empty. -/
theorem ctor_stored_pointer_eq_iff (b : Build) (h64 : b.ptrBits = 64) (delta : Nat)
    (T : TypeId) (d : Nat) (m : Mem) :
    intToPtr b (wrapInt (ptrToInt (d + delta) + ctorOffset b delta))
      = truncateThenSignExtend d ∧
    (intToPtr b (wrapInt (ptrToInt (d + delta) + ctorOffset b delta)) = d
      ↔ truncateThenSignExtend d = d) ∧
    (m.ms_Singleton T = 0 →
      ctor b delta T (d + delta) m
        = .ok () (m.set T (intToPtr b (wrapInt (ptrToInt (d + delta) + ctorOffset b delta)))) ∧
      ((ctor b delta T (d + delta) m).mem.ms_Singleton T = d
        ↔ truncateThenSignExtend d = d)) := by
  have h32 : 32 ≤ b.ptrBits := by omega
  have hs : intToPtr b (wrapInt (ptrToInt (d + delta) + ctorOffset b delta))
      = truncateThenSignExtend d := by
    rw [ctor_int_sum b h32 d delta, intToPtr_ptrToInt_64 b h64 d]
  refine ⟨hs, by rw [hs], fun hm => ?_⟩
  have hc := ctor_of_empty b delta T (d + delta) m hm
  refine ⟨hc, ?_⟩
  rw [hc]
  simp only [Outcome.mem, set_same]
  rw [hs]

/-- C15 at concrete inputs on a 64-bit target with the sub-object 8 bytes in:
the address `4096` is stored unchanged, and for the address `0x100000010` the
stored pointer is `0x10`. -/
theorem ctor_stored_pointer_eq_iff_witness :
    (ctor llp64 8 0 (4096 + 8) initMem).mem.ms_Singleton 0 = 4096 ∧
    truncateThenSignExtend 4096 = 4096 ∧
    intToPtr llp64 (wrapInt (ptrToInt (4294967312 + 8) + ctorOffset llp64 8)) = 16 ∧
    truncateThenSignExtend 4294967312 ≠ 4294967312 := by
  have h := ctor_stored_pointer_eq_iff llp64 rfl 8 0 4096 initMem
  have h2 := ctor_stored_pointer_eq_iff llp64 rfl 8 0 4294967312 initMem
  have hfix : truncateThenSignExtend 4096 = 4096 := by decide
  refine ⟨((h.2.2 rfl).2).2 hfix, hfix, ?_, by decide⟩
  rw [h2.1]
  decide

end Gems.Singleton
